import Mathlib

/-
Verification of the FFI boundary layer of classic-terra/wasmvm
(src/cache.rs): handle lifecycle, panic containment, the last-error
channel, and the five content-addressed cache operations.

Modelling conventions:
- Bytes are lists of naturals (each intended below 256; the boundary
  layer never does byte arithmetic, so no modular reasoning is needed).
- A nullable pointer or buffer is an Option: none is the null/absent
  state, some the present state.
- The opaque cache handle is modelled directly as the optional engine
  state behind the pointer; to_cache is the null check of the source.
- The cache engine (crate cosmwasm_vm) is outside this repository; its
  operations are modelled from the spec where marked.
- A possibly-panicking inner computation is an Outcome: either a normal
  Except result or a panic. catchUnwind is the containment combinator
  of the source; exposed operations take the inner body as a parameter
  in their _with form so that containment can be stated for every
  possible body, and the concrete exposed operation instantiates the
  body with the do_ function translated from the source.
-/

set_option autoImplicit false

namespace Wasmvm

abbrev Bytes := List Nat

/-- Modelled from the spec: argument names used in empty-argument errors
(crate module args.rs, not under src/). -/
def CACHE_ARG : String := "cache"

/-- Modelled from the spec: name of the data directory argument. -/
def DATA_DIR_ARG : String := "data_dir"

/-- Modelled from the spec: name of the supported features argument. -/
def FEATURES_ARG : String := "supported_features"

/-- Modelled from the spec: name of the wasm bytes argument. -/
def WASM_ARG : String := "wasm"

/-- Modelled from the spec: name of the checksum argument. -/
def CHECKSUM_ARG : String := "checksum"

/-- The fixed checksum length: a checksum is a 32 byte content hash. -/
def CHECKSUM_LEN : Nat := 32

abbrev Checksum := Bytes

/-- Modelled from the spec: the error taxonomy of the boundary layer
(crate module error.rs, not under src/): missing or empty argument,
malformed text encoding, wrong-length checksum, checksum not found,
engine failure, contained internal panic. -/
inductive Error where
  | emptyArg (arg : String)
  | invalidUtf8
  | invalidChecksumLen (len : Nat)
  | notFound
  | engineErr (msg : String)
  | panic
deriving Repr, DecidableEq

/-- Modelled from the spec: the UTF-8 message each error renders to.
The panic message is generic and distinct from all input-derived ones. -/
def errMsg : Error → String
  | Error.emptyArg a => "Null/Empty argument: " ++ a
  | Error.invalidUtf8 => "Cannot decode UTF8 bytes into string"
  | Error.invalidChecksumLen _ => "Checksum not of length 32"
  | Error.notFound => "Error calling the VM: Cache error: checksum not found"
  | Error.engineErr m => "Error calling the VM: " ++ m
  | Error.panic => "Caught panic"

/-- Modelled from the spec: an owned byte buffer crossing the boundary.
none is the null buffer (read yields nothing); some bs is a present
buffer of bytes bs, possibly of zero length. -/
abbrev Buffer := Option Bytes

/-- Modelled from the spec: a borrowed read-only byte view; none is the
distinguished missing state produced by a null input. -/
abbrev ByteSliceView := Option Bytes

/-- Reading a buffer: null gives none, otherwise the bytes. -/
def Buffer.read (b : Buffer) : Option Bytes := b

/-- Reading a view: null gives none, otherwise the bytes. -/
def ByteSliceView.read (v : ByteSliceView) : Option Bytes := v

/-- Building an owned buffer from a byte vector. -/
def Buffer.from_vec (v : Bytes) : Buffer := some v

/-- Modelled from the spec: the state of one engine instance — the
stored modules keyed by checksum, and the set of pinned checksums. -/
structure EngineState where
  modules : List (Checksum × Bytes)
  pinned : List Checksum
deriving Repr, DecidableEq

/-- Modelled from the spec: the engine derives a fixed-length checksum
deterministically from the module bytes. The concrete hash is the
engine's own and out of scope; any deterministic 32 byte function of
the input represents it. -/
def checksumOf (wasm : Bytes) : Checksum :=
  (List.range CHECKSUM_LEN).map fun i =>
    wasm.foldl (fun a b => (a * 31 + b) % 256) ((i + wasm.length) % 256)

theorem checksumOf_length (w : Bytes) : (checksumOf w).length = CHECKSUM_LEN := by
  simp [checksumOf]

/-- TryFrom conversion of raw bytes into a checksum: exactly
CHECKSUM_LEN bytes succeed, any other length is a malformed-input
error (never a panic). -/
def checksumTryFrom (bs : Bytes) : Except Error Checksum :=
  if bs.length = CHECKSUM_LEN then Except.ok bs else Except.error (Error.invalidChecksumLen bs.length)

/-- Modelled from the spec: storing a module. The engine validates the
bytes (an empty module is invalid) and stores them under their
deterministic checksum. -/
def EngineState.saveWasm (s : EngineState) (wasm : Bytes) : Except Error (Checksum × EngineState) :=
  if wasm = [] then Except.error (Error.engineErr "Wasm bytecode could not be deserialized")
  else
    Except.ok (checksumOf wasm, { s with modules := (checksumOf wasm, wasm) :: s.modules })

/-- Modelled from the spec: loading the stored bytes of a checksum; an
unknown checksum is a not-found failure. -/
def EngineState.loadWasm (s : EngineState) (cs : Checksum) : Except Error Bytes :=
  match s.modules.lookup cs with
  | some w => Except.ok w
  | none => Except.error Error.notFound

/-- Modelled from the spec: pinning a stored module; pinning an
already-pinned module is a no-op success, an unknown checksum is a
not-found failure. -/
def EngineState.pin (s : EngineState) (cs : Checksum) : Except Error EngineState :=
  match s.modules.lookup cs with
  | some _ =>
    Except.ok { s with pinned := if s.pinned.contains cs then s.pinned else cs :: s.pinned }
  | none => Except.error Error.notFound

/-- Modelled from the spec: unpinning; unpinning a non-pinned stored
module is a no-op success, an unknown checksum is a not-found failure. -/
def EngineState.unpin (s : EngineState) (cs : Checksum) : Except Error EngineState :=
  match s.modules.lookup cs with
  | some _ => Except.ok { s with pinned := s.pinned.filter (fun c => ¬(c == cs)) }
  | none => Except.error Error.notFound

/-- Modelled from the spec: whether a module exposes the IBC entry
point class. The concrete byte-level predicate is the engine's own and
out of scope; an arbitrary decidable stand-in represents it. -/
def hasIbcEntryPoints (wasm : Bytes) : Bool := wasm.contains 105

/-- The capability report record of the boundary layer (source lines
174-186): a plain record of boolean flags. -/
structure AnalysisReport where
  has_ibc_entry_points : Bool
deriving Repr, DecidableEq

/-- The all-false default report returned on analysis failure. -/
def AnalysisReport.mkDefault : AnalysisReport := { has_ibc_entry_points := false }

/-- Modelled from the spec: analyzing a stored module; an unknown
checksum is a not-found failure. -/
def EngineState.analyze (s : EngineState) (cs : Checksum) : Except Error AnalysisReport :=
  match s.modules.lookup cs with
  | some w => Except.ok { has_ibc_entry_points := hasIbcEntryPoints w }
  | none => Except.error Error.notFound

/-- Whether a byte is a UTF-8 continuation byte (0x80 to 0xBF). -/
def contByte (c : Nat) : Bool := decide (0x80 ≤ c) && decide (c ≤ 0xBF)

/-- Constraint on the first continuation byte of a three byte sequence
(rules out overlong encodings and surrogates). -/
def cont3First (b c : Nat) : Bool :=
  contByte c && (if b = 0xE0 then decide (0xA0 ≤ c) else true)
    && (if b = 0xED then decide (c ≤ 0x9F) else true)

/-- Constraint on the first continuation byte of a four byte sequence
(rules out overlong encodings and values beyond U+10FFFF). -/
def cont4First (b c : Nat) : Bool :=
  contByte c && (if b = 0xF0 then decide (0x90 ≤ c) else true)
    && (if b = 0xF4 then decide (c ≤ 0x8F) else true)

/-- UTF-8 validity of a byte sequence, the check behind the string
decoding steps of initialization. A nul byte (0x00) is valid UTF-8. -/
def utf8Valid : Bytes → Bool
  | [] => true
  | b :: rest =>
    if b ≤ 0x7F then utf8Valid rest
    else if b < 0xC2 then false
    else if b ≤ 0xDF then
      match rest with
      | [] => false
      | c :: rest2 => contByte c && utf8Valid rest2
    else if b ≤ 0xEF then
      match rest with
      | c :: d :: rest3 => cont3First b c && contByte d && utf8Valid rest3
      | _ => false
    else if b ≤ 0xF4 then
      match rest with
      | c :: d :: e :: rest4 =>
        cont4First b c && contByte d && contByte e && utf8Valid rest4
      | _ => false
    else false

/-- Modelled from the spec: the feature list is a comma separated
string parsed into a deduplicated set of names (crate cosmwasm_vm,
out of scope). -/
def features_from_csv (s : Bytes) : List Bytes :=
  ((s.splitOn 44).filter (fun f => f ≠ [])).dedup

/-- Mebibyte conversion of the two size parameters. -/
def Size.mebi (n : Nat) : Nat := n * 1024 * 1024

/-- The options record consumed by engine construction (source lines
81-86). -/
structure CacheOptions where
  base_dir : Bytes
  supported_features : List Bytes
  memory_cache_size : Nat
  instance_memory_limit : Nat
deriving Repr, DecidableEq

/-- Modelled from the spec: engine construction (crate cosmwasm_vm,
out of scope). Creating the cache directory fails when the base
directory path contains an embedded nul byte; otherwise a fresh empty
engine instance is produced. -/
def Cache.new (opts : CacheOptions) : Except Error EngineState :=
  if opts.base_dir.contains 0 then
    Except.error (Error.engineErr
      "Cache error: Error creating Wasm dir for cache: data provided contains a nul byte")
  else Except.ok { modules := [], pinned := [] }

/-- A possibly panicking inner computation: either it terminates
normally with an Except result, or it panics. -/
inductive Outcome (α : Type) where
  | normal (r : Except Error α)
  | panicked

/-- The containment combinator of the source: catch_unwind followed by
unwrap_or_else with the generic panic error. A normal result passes
through; a panic becomes the ordinary panic error. -/
def catchUnwind {α : Type} (o : Outcome α) : Except Error α :=
  match o with
  | Outcome.normal r => r
  | Outcome.panicked => Except.error Error.panic

/-- to_cache (source lines 17-24): the null check on the handle. The
handle is modelled directly as the optional engine state behind the
pointer. -/
def to_cache (ptr : Option EngineState) : Option EngineState := ptr

/-- Modelled from the spec: handle_c_error_binary of error.rs (not
under src/). On success the last-error slot is cleared, the output
error parameter is left untouched and the byte payload is returned; on
failure the message goes to the slot and, when the output parameter is
supplied, to that parameter, and the empty payload is returned. The
result is (payload, new slot content, bytes written to the output
parameter; none means untouched). Strings stand for their UTF-8
bytes. -/
def handle_c_error_binary (r : Except Error Bytes) (errSupplied : Bool) :
    Bytes × Option String × Option String :=
  match r with
  | Except.ok t => (t, none, none)
  | Except.error e =>
    ([], some (errMsg e), if errSupplied then some (errMsg e) else none)

/-- Modelled from the spec: handle_c_error_default of error.rs for
operations returning no payload. -/
def handle_c_error_default (r : Except Error Unit) (errSupplied : Bool) :
    Option String × Option String :=
  match r with
  | Except.ok _ => (none, none)
  | Except.error e =>
    (some (errMsg e), if errSupplied then some (errMsg e) else none)

/-- The observable result of one exposed call: the returned value, the
engine state behind the handle after the call, the last-error slot
after the call, and what was written to the output error parameter
(none means untouched or not supplied). -/
structure CallResult (α : Type) where
  ret : α
  cache : Option EngineState
  last : Option String
  errOut : Option String
deriving Repr, DecidableEq

/-- do_init_cache (source lines 55-90): read and UTF-8 decode the data
directory, read and UTF-8 decode the feature list, parse it, convert
the sizes from mebibytes, and construct the engine. -/
def do_init_cache (data_dir : ByteSliceView) (supported_features : ByteSliceView)
    (cache_size : Nat) (instance_memory_limit : Nat) : Except Error EngineState :=
  match ByteSliceView.read data_dir with
  | none => Except.error (Error.emptyArg DATA_DIR_ARG)
  | some dir =>
    if utf8Valid dir then
      match ByteSliceView.read supported_features with
      | none => Except.error (Error.emptyArg FEATURES_ARG)
      | some features_bin =>
        if utf8Valid features_bin then
          Cache.new
            { base_dir := dir
              supported_features := features_from_csv features_bin
              memory_cache_size := Size.mebi cache_size
              instance_memory_limit := Size.mebi instance_memory_limit }
        else Except.error Error.invalidUtf8
    else Except.error Error.invalidUtf8

/-- The result of init_cache: the produced handle (none is the null
pointer), the last-error slot, and what was written to the output
error parameter. -/
structure InitResult where
  handle : Option EngineState
  last : Option String
  errOut : Option String
deriving Repr, DecidableEq

/-- init_cache (source lines 27-53) with the inner body abstracted:
the body runs under catch_unwind; a normal success clears the error
slot and returns the handle, any failure (panic included) sets the
error and returns the null handle. -/
def init_cache_with (inner : Outcome EngineState) (errSupplied : Bool) : InitResult :=
  match catchUnwind inner with
  | Except.ok t => { handle := some t, last := none, errOut := none }
  | Except.error e =>
    { handle := none, last := some (errMsg e)
      errOut := if errSupplied then some (errMsg e) else none }

/-- init_cache with the body translated from the source. -/
def init_cache (data_dir : ByteSliceView) (supported_features : ByteSliceView)
    (cache_size : Nat) (instance_memory_limit : Nat) (errSupplied : Bool) : InitResult :=
  init_cache_with
    (Outcome.normal (do_init_cache data_dir supported_features cache_size instance_memory_limit))
    errSupplied

/-- do_save_wasm (source lines 103-110): read the wasm buffer (null is
an empty-argument failure) and store it in the engine. -/
def do_save_wasm (cache : EngineState) (wasm : Buffer) :
    Except Error (Checksum × EngineState) :=
  match Buffer.read wasm with
  | none => Except.error (Error.emptyArg WASM_ARG)
  | some w => cache.saveWasm w

/-- The result value of save_wasm (the `let r = match ...` of source
lines 94-98): the handle is checked first, then the inner body runs
under catch_unwind. -/
def save_wasm_r (inner : EngineState → Outcome (Checksum × EngineState))
    (cache : Option EngineState) : Except Error (Checksum × EngineState) :=
  match to_cache cache with
  | some c => catchUnwind (inner c)
  | none => Except.error (Error.emptyArg CACHE_ARG)

/-- save_wasm (source lines 93-101) with the inner body abstracted:
the result goes through handle_c_error_binary and is returned as an
owned buffer (the checksum bytes on success, empty on failure). -/
def save_wasm_with (inner : EngineState → Outcome (Checksum × EngineState))
    (cache : Option EngineState) (errSupplied : Bool) : CallResult Buffer :=
  let r := save_wasm_r inner cache
  let h := handle_c_error_binary (Except.map Prod.fst r) errSupplied
  { ret := Buffer.from_vec h.1
    cache := match r with
      | Except.ok p => some p.2
      | Except.error _ => cache
    last := h.2.1
    errOut := h.2.2 }

/-- save_wasm with the body translated from the source. -/
def save_wasm (cache : Option EngineState) (wasm : Buffer) (errSupplied : Bool) :
    CallResult Buffer :=
  save_wasm_with (fun c => Outcome.normal (do_save_wasm c wasm)) cache errSupplied

/-- do_load_wasm (source lines 127-136): read the checksum buffer
(null is an empty-argument failure), convert it to a checksum (wrong
length is a malformed-input failure) and load the stored bytes. -/
def do_load_wasm (cache : EngineState) (checksum : Buffer) : Except Error Bytes :=
  match Buffer.read checksum with
  | none => Except.error (Error.emptyArg CHECKSUM_ARG)
  | some bs =>
    match checksumTryFrom bs with
    | Except.error e => Except.error e
    | Except.ok cs => cache.loadWasm cs

/-- The result value of load_wasm (source lines 118-122). -/
def load_wasm_r (inner : EngineState → Outcome Bytes)
    (cache : Option EngineState) : Except Error Bytes :=
  match to_cache cache with
  | some c => catchUnwind (inner c)
  | none => Except.error (Error.emptyArg CACHE_ARG)

/-- load_wasm (source lines 113-125) with the inner body abstracted.
Loading does not change the engine state. -/
def load_wasm_with (inner : EngineState → Outcome Bytes)
    (cache : Option EngineState) (errSupplied : Bool) : CallResult Buffer :=
  let h := handle_c_error_binary (load_wasm_r inner cache) errSupplied
  { ret := Buffer.from_vec h.1, cache := cache, last := h.2.1, errOut := h.2.2 }

/-- load_wasm with the body translated from the source. -/
def load_wasm (cache : Option EngineState) (checksum : Buffer) (errSupplied : Bool) :
    CallResult Buffer :=
  load_wasm_with (fun c => Outcome.normal (do_load_wasm c checksum)) cache errSupplied

/-- do_pin (source lines 148-154): read and convert the checksum, then
pin it in the engine; the new engine state is returned explicitly
(the source mutates through the handle). -/
def do_pin (cache : EngineState) (checksum : Buffer) : Except Error EngineState :=
  match Buffer.read checksum with
  | none => Except.error (Error.emptyArg CHECKSUM_ARG)
  | some bs =>
    match checksumTryFrom bs with
    | Except.error e => Except.error e
    | Except.ok cs => cache.pin cs

/-- The result value of pin (source lines 140-144). -/
def pin_r (inner : EngineState → Outcome EngineState)
    (cache : Option EngineState) : Except Error EngineState :=
  match to_cache cache with
  | some c => catchUnwind (inner c)
  | none => Except.error (Error.emptyArg CACHE_ARG)

/-- pin (source lines 139-146) with the inner body abstracted: the
result goes through handle_c_error_default; there is no payload. -/
def pin_with (inner : EngineState → Outcome EngineState)
    (cache : Option EngineState) (errSupplied : Bool) : CallResult Unit :=
  let r := pin_r inner cache
  let h := handle_c_error_default (Except.map (fun _ => ()) r) errSupplied
  { ret := ()
    cache := match r with
      | Except.ok c2 => some c2
      | Except.error _ => cache
    last := h.1
    errOut := h.2 }

/-- pin with the body translated from the source. -/
def pin (cache : Option EngineState) (checksum : Buffer) (errSupplied : Bool) :
    CallResult Unit :=
  pin_with (fun c => Outcome.normal (do_pin c checksum)) cache errSupplied

/-- do_unpin (source lines 166-172): read and convert the checksum,
then unpin it in the engine. -/
def do_unpin (cache : EngineState) (checksum : Buffer) : Except Error EngineState :=
  match Buffer.read checksum with
  | none => Except.error (Error.emptyArg CHECKSUM_ARG)
  | some bs =>
    match checksumTryFrom bs with
    | Except.error e => Except.error e
    | Except.ok cs => cache.unpin cs

/-- The result value of unpin (source lines 158-162). -/
def unpin_r (inner : EngineState → Outcome EngineState)
    (cache : Option EngineState) : Except Error EngineState :=
  match to_cache cache with
  | some c => catchUnwind (inner c)
  | none => Except.error (Error.emptyArg CACHE_ARG)

/-- unpin (source lines 157-164) with the inner body abstracted. -/
def unpin_with (inner : EngineState → Outcome EngineState)
    (cache : Option EngineState) (errSupplied : Bool) : CallResult Unit :=
  let r := unpin_r inner cache
  let h := handle_c_error_default (Except.map (fun _ => ()) r) errSupplied
  { ret := ()
    cache := match r with
      | Except.ok c2 => some c2
      | Except.error _ => cache
    last := h.1
    errOut := h.2 }

/-- unpin with the body translated from the source. -/
def unpin (cache : Option EngineState) (checksum : Buffer) (errSupplied : Bool) :
    CallResult Unit :=
  unpin_with (fun c => Outcome.normal (do_unpin c checksum)) cache errSupplied

/-- do_analyze_code (source lines 211-220): read and convert the
checksum, then analyze the stored module. -/
def do_analyze_code (cache : EngineState) (checksum : Buffer) :
    Except Error AnalysisReport :=
  match Buffer.read checksum with
  | none => Except.error (Error.emptyArg CHECKSUM_ARG)
  | some bs =>
    match checksumTryFrom bs with
    | Except.error e => Except.error e
    | Except.ok cs => cache.analyze cs

/-- The result value of analyze_code (source lines 194-198). -/
def analyze_code_r (inner : EngineState → Outcome AnalysisReport)
    (cache : Option EngineState) : Except Error AnalysisReport :=
  match to_cache cache with
  | some c => catchUnwind (inner c)
  | none => Except.error (Error.emptyArg CACHE_ARG)

/-- analyze_code (source lines 189-209) with the inner body
abstracted: success clears the error slot and returns the report, any
failure sets the error and returns the default all-false report.
Analysis does not change the engine state. -/
def analyze_code_with (inner : EngineState → Outcome AnalysisReport)
    (cache : Option EngineState) (errSupplied : Bool) : CallResult AnalysisReport :=
  match analyze_code_r inner cache with
  | Except.ok value => { ret := value, cache := cache, last := none, errOut := none }
  | Except.error e =>
    { ret := AnalysisReport.mkDefault, cache := cache, last := some (errMsg e)
      errOut := if errSupplied then some (errMsg e) else none }

/-- analyze_code with the body translated from the source. -/
def analyze_code (cache : Option EngineState) (checksum : Buffer) (errSupplied : Bool) :
    CallResult AnalysisReport :=
  analyze_code_with (fun c => Outcome.normal (do_analyze_code c checksum)) cache errSupplied

/-- release_cache (source lines 229-234) with the engine drop
abstracted: a null handle is ignored; otherwise the box behind the
pointer is reconstructed and dropped. The source wraps release in no
containment, so the drop outcome propagates: the result some b records
a normal return (b tells whether this call deallocated the engine
instance), none records a panic unwinding across the boundary. -/
def release_cache_with (dropOutcome : Outcome Unit) (cache : Option EngineState) :
    Option Bool :=
  match cache with
  | none => some false
  | some _ =>
    match dropOutcome with
    | Outcome.normal _ => some true
    | Outcome.panicked => none

/-- release_cache with a normally terminating drop. -/
def release_cache (cache : Option EngineState) : Option Bool :=
  release_cache_with (Outcome.normal (Except.ok ())) cache

/-- Claim C1 counterexample: the claim includes release among the
operations whose panics are intercepted, but release_cache runs under
no containment boundary — on a live handle a panicking engine drop
unwinds across the foreign function boundary (result none) instead of
being converted into the ordinary failure path. -/
theorem c1_release_uncontained :
    release_cache_with Outcome.panicked (some { modules := [], pinned := [] }) = none := rfl

/-- Claim C1 (amended): for init, save, load, pin, unpin and analyze,
a panic raised inside the operation body on a live handle is
intercepted by the containment boundary and converted into the
ordinary failure path: the failure sentinel is returned, the engine
state is kept, and the generic internal-panic message goes to the
last-error slot and, when supplied, to the output error parameter.
release carries no containment boundary (its body performs only the
deallocation). -/
theorem c1_panic_containment :
    ∀ (es : Bool) (c : EngineState),
      init_cache_with Outcome.panicked es =
        { handle := none, last := some (errMsg Error.panic)
          errOut := if es then some (errMsg Error.panic) else none }
    ∧ save_wasm_with (fun _ => Outcome.panicked) (some c) es =
        { ret := Buffer.from_vec [], cache := some c, last := some (errMsg Error.panic)
          errOut := if es then some (errMsg Error.panic) else none }
    ∧ load_wasm_with (fun _ => Outcome.panicked) (some c) es =
        { ret := Buffer.from_vec [], cache := some c, last := some (errMsg Error.panic)
          errOut := if es then some (errMsg Error.panic) else none }
    ∧ pin_with (fun _ => Outcome.panicked) (some c) es =
        { ret := (), cache := some c, last := some (errMsg Error.panic)
          errOut := if es then some (errMsg Error.panic) else none }
    ∧ unpin_with (fun _ => Outcome.panicked) (some c) es =
        { ret := (), cache := some c, last := some (errMsg Error.panic)
          errOut := if es then some (errMsg Error.panic) else none }
    ∧ analyze_code_with (fun _ => Outcome.panicked) (some c) es =
        { ret := AnalysisReport.mkDefault, cache := some c, last := some (errMsg Error.panic)
          errOut := if es then some (errMsg Error.panic) else none } := by
  intro es c
  exact ⟨rfl, rfl, rfl, rfl, rfl, rfl⟩

/-- Claim C2: each of save, load, pin, unpin and analyze, called with
a null handle, fails with the distinguished missing-handle error (the
empty cache argument error) for every possible inner body — the engine
and the containment wrapper inner call are never reached — and the
exposed call reports exactly that error. -/
theorem c2_null_handle_rejected :
    ∀ (es : Bool)
      (i1 : EngineState → Outcome (Checksum × EngineState))
      (i2 : EngineState → Outcome Bytes)
      (i3 i4 : EngineState → Outcome EngineState)
      (i5 : EngineState → Outcome AnalysisReport),
      save_wasm_r i1 none = Except.error (Error.emptyArg CACHE_ARG)
    ∧ load_wasm_r i2 none = Except.error (Error.emptyArg CACHE_ARG)
    ∧ pin_r i3 none = Except.error (Error.emptyArg CACHE_ARG)
    ∧ unpin_r i4 none = Except.error (Error.emptyArg CACHE_ARG)
    ∧ analyze_code_r i5 none = Except.error (Error.emptyArg CACHE_ARG)
    ∧ (save_wasm_with i1 none es).last = some (errMsg (Error.emptyArg CACHE_ARG))
    ∧ (load_wasm_with i2 none es).last = some (errMsg (Error.emptyArg CACHE_ARG))
    ∧ (pin_with i3 none es).last = some (errMsg (Error.emptyArg CACHE_ARG))
    ∧ (unpin_with i4 none es).last = some (errMsg (Error.emptyArg CACHE_ARG))
    ∧ (analyze_code_with i5 none es).last = some (errMsg (Error.emptyArg CACHE_ARG)) := by
  intro es i1 i2 i3 i4 i5
  exact ⟨rfl, rfl, rfl, rfl, rfl, rfl, rfl, rfl, rfl, rfl⟩

/-- Claim C9: release on a null handle is a safe no-op that
deallocates nothing and does not fail; on every live handle it
deallocates the engine instance behind the handle exactly once (the
single box reconstructed from the pointer is dropped, recorded by the
true flag of this one call). -/
theorem c9_release_semantics :
    release_cache none = some false
    ∧ ∀ s : EngineState, release_cache (some s) = some true :=
  ⟨rfl, fun _ => rfl⟩

/-- Claim C10: the handle is validated first. With a null handle, the
result of save, load, pin, unpin and analyze is independent of the
other byte-buffer argument (it is never read or decoded, whether
absent, empty, or of wrong length), and the reported error is always
the missing-cache-argument error. -/
theorem c10_handle_checked_first :
    ∀ (es : Bool) (b1 b2 : Buffer),
      save_wasm none b1 es = save_wasm none b2 es
    ∧ (save_wasm none b1 es).last = some (errMsg (Error.emptyArg CACHE_ARG))
    ∧ load_wasm none b1 es = load_wasm none b2 es
    ∧ (load_wasm none b1 es).last = some (errMsg (Error.emptyArg CACHE_ARG))
    ∧ pin none b1 es = pin none b2 es
    ∧ (pin none b1 es).last = some (errMsg (Error.emptyArg CACHE_ARG))
    ∧ unpin none b1 es = unpin none b2 es
    ∧ (unpin none b1 es).last = some (errMsg (Error.emptyArg CACHE_ARG))
    ∧ analyze_code none b1 es = analyze_code none b2 es
    ∧ (analyze_code none b1 es).last = some (errMsg (Error.emptyArg CACHE_ARG)) := by
  intro es b1 b2
  exact ⟨rfl, rfl, rfl, rfl, rfl, rfl, rfl, rfl, rfl, rfl⟩

/-- Claim C3: on every failing call (the last-error slot holds a
message m), the message is written to the output error parameter when
supplied, and the designated failure sentinel is returned: null handle
for init, empty buffer for save and load, the default all-false report
for analyze (pin and unpin return no value). -/
theorem c3_failure_sentinel :
    ∀ (es : Bool) (m : String),
      (∀ dd sf a b, (init_cache dd sf a b es).last = some m →
        (init_cache dd sf a b es).handle = none
        ∧ (init_cache dd sf a b es).errOut = (if es then some m else none))
    ∧ (∀ cache wasm, (save_wasm cache wasm es).last = some m →
        (save_wasm cache wasm es).ret = Buffer.from_vec []
        ∧ (save_wasm cache wasm es).errOut = (if es then some m else none))
    ∧ (∀ cache cs, (load_wasm cache cs es).last = some m →
        (load_wasm cache cs es).ret = Buffer.from_vec []
        ∧ (load_wasm cache cs es).errOut = (if es then some m else none))
    ∧ (∀ cache cs, (pin cache cs es).last = some m →
        (pin cache cs es).errOut = (if es then some m else none))
    ∧ (∀ cache cs, (unpin cache cs es).last = some m →
        (unpin cache cs es).errOut = (if es then some m else none))
    ∧ (∀ cache cs, (analyze_code cache cs es).last = some m →
        (analyze_code cache cs es).ret = AnalysisReport.mkDefault
        ∧ (analyze_code cache cs es).errOut = (if es then some m else none)) := by
  intro es m
  refine ⟨?_, ?_, ?_, ?_, ?_, ?_⟩
  · intro dd sf a b h
    cases hr : do_init_cache dd sf a b with
    | ok t => simp [init_cache, init_cache_with, catchUnwind, hr] at h
    | error e =>
      simp only [init_cache, init_cache_with, catchUnwind, hr] at h ⊢
      simp only [Option.some.injEq] at h
      subst h
      constructor <;> trivial
  · intro cache wasm h
    cases hr : save_wasm_r (fun c => Outcome.normal (do_save_wasm c wasm)) cache with
    | ok p => simp [save_wasm, save_wasm_with, handle_c_error_binary, Except.map, hr] at h
    | error e =>
      simp only [save_wasm, save_wasm_with, handle_c_error_binary, Except.map, hr] at h ⊢
      simp only [Option.some.injEq] at h
      subst h
      constructor <;> trivial
  · intro cache cs h
    cases hr : load_wasm_r (fun c => Outcome.normal (do_load_wasm c cs)) cache with
    | ok p => simp [load_wasm, load_wasm_with, handle_c_error_binary, hr] at h
    | error e =>
      simp only [load_wasm, load_wasm_with, handle_c_error_binary, hr] at h ⊢
      simp only [Option.some.injEq] at h
      subst h
      constructor <;> trivial
  · intro cache cs h
    cases hr : pin_r (fun c => Outcome.normal (do_pin c cs)) cache with
    | ok p => simp [pin, pin_with, handle_c_error_default, Except.map, hr] at h
    | error e =>
      simp only [pin, pin_with, handle_c_error_default, Except.map, hr] at h ⊢
      simp only [Option.some.injEq] at h
      subst h
      rfl
  · intro cache cs h
    cases hr : unpin_r (fun c => Outcome.normal (do_unpin c cs)) cache with
    | ok p => simp [unpin, unpin_with, handle_c_error_default, Except.map, hr] at h
    | error e =>
      simp only [unpin, unpin_with, handle_c_error_default, Except.map, hr] at h ⊢
      simp only [Option.some.injEq] at h
      subst h
      rfl
  · intro cache cs h
    cases hr : analyze_code_r (fun c => Outcome.normal (do_analyze_code c cs)) cache with
    | ok p => simp [analyze_code, analyze_code_with, hr] at h
    | error e =>
      simp only [analyze_code, analyze_code_with, hr] at h ⊢
      simp only [Option.some.injEq] at h
      subst h
      constructor <;> trivial

/-- Witness for C3 at concrete failing inputs: a null handle for save
and analyze, a null data directory for init, with the output error
parameter supplied. -/
theorem c3_failure_sentinel_witness :
    (save_wasm none none true).ret = Buffer.from_vec []
    ∧ (save_wasm none none true).errOut = some (errMsg (Error.emptyArg CACHE_ARG))
    ∧ (init_cache none none 512 32 true).handle = none
    ∧ (init_cache none none 512 32 true).errOut = some (errMsg (Error.emptyArg DATA_DIR_ARG))
    ∧ (analyze_code none none true).ret = AnalysisReport.mkDefault := by
  have hs := (c3_failure_sentinel true (errMsg (Error.emptyArg CACHE_ARG))).2.1 none none rfl
  have hi := (c3_failure_sentinel true (errMsg (Error.emptyArg DATA_DIR_ARG))).1 none none 512 32 rfl
  have ha := (c3_failure_sentinel true
    (errMsg (Error.emptyArg CACHE_ARG))).2.2.2.2.2 none none rfl
  exact ⟨hs.1, by simpa using hs.2, hi.1, by simpa using hi.2, ha.1⟩

/-- Claim C4: the process-wide last-error slot is cleared on every
successful call and holds the failing call's message on every failing
call, for init, save, load, pin, unpin and analyze; success and
failure are the Result value computed by the operation itself. -/
theorem c4_last_error_lifecycle :
    ∀ (es : Bool),
      (∀ dd sf a b t, do_init_cache dd sf a b = Except.ok t →
        (init_cache dd sf a b es).last = none)
    ∧ (∀ dd sf a b e, do_init_cache dd sf a b = Except.error e →
        (init_cache dd sf a b es).last = some (errMsg e))
    ∧ (∀ cache wasm p,
        save_wasm_r (fun c => Outcome.normal (do_save_wasm c wasm)) cache = Except.ok p →
        (save_wasm cache wasm es).last = none)
    ∧ (∀ cache wasm e,
        save_wasm_r (fun c => Outcome.normal (do_save_wasm c wasm)) cache = Except.error e →
        (save_wasm cache wasm es).last = some (errMsg e))
    ∧ (∀ cache cs p,
        load_wasm_r (fun c => Outcome.normal (do_load_wasm c cs)) cache = Except.ok p →
        (load_wasm cache cs es).last = none)
    ∧ (∀ cache cs e,
        load_wasm_r (fun c => Outcome.normal (do_load_wasm c cs)) cache = Except.error e →
        (load_wasm cache cs es).last = some (errMsg e))
    ∧ (∀ cache cs p,
        pin_r (fun c => Outcome.normal (do_pin c cs)) cache = Except.ok p →
        (pin cache cs es).last = none)
    ∧ (∀ cache cs e,
        pin_r (fun c => Outcome.normal (do_pin c cs)) cache = Except.error e →
        (pin cache cs es).last = some (errMsg e))
    ∧ (∀ cache cs p,
        unpin_r (fun c => Outcome.normal (do_unpin c cs)) cache = Except.ok p →
        (unpin cache cs es).last = none)
    ∧ (∀ cache cs e,
        unpin_r (fun c => Outcome.normal (do_unpin c cs)) cache = Except.error e →
        (unpin cache cs es).last = some (errMsg e))
    ∧ (∀ cache cs p,
        analyze_code_r (fun c => Outcome.normal (do_analyze_code c cs)) cache = Except.ok p →
        (analyze_code cache cs es).last = none)
    ∧ (∀ cache cs e,
        analyze_code_r (fun c => Outcome.normal (do_analyze_code c cs)) cache = Except.error e →
        (analyze_code cache cs es).last = some (errMsg e)) := by
  intro es
  refine ⟨?_, ?_, ?_, ?_, ?_, ?_, ?_, ?_, ?_, ?_, ?_, ?_⟩
  · intro dd sf a b t hr
    simp [init_cache, init_cache_with, catchUnwind, hr]
  · intro dd sf a b e hr
    simp [init_cache, init_cache_with, catchUnwind, hr]
  · intro cache wasm p hr
    simp [save_wasm, save_wasm_with, handle_c_error_binary, Except.map, hr]
  · intro cache wasm e hr
    simp [save_wasm, save_wasm_with, handle_c_error_binary, Except.map, hr]
  · intro cache cs p hr
    simp [load_wasm, load_wasm_with, handle_c_error_binary, hr]
  · intro cache cs e hr
    simp [load_wasm, load_wasm_with, handle_c_error_binary, hr]
  · intro cache cs p hr
    simp [pin, pin_with, handle_c_error_default, Except.map, hr]
  · intro cache cs e hr
    simp [pin, pin_with, handle_c_error_default, Except.map, hr]
  · intro cache cs p hr
    simp [unpin, unpin_with, handle_c_error_default, Except.map, hr]
  · intro cache cs e hr
    simp [unpin, unpin_with, handle_c_error_default, Except.map, hr]
  · intro cache cs p hr
    simp [analyze_code, analyze_code_with, hr]
  · intro cache cs e hr
    simp [analyze_code, analyze_code_with, hr]

/-- Witness for C4: a successful and a failing init, and a successful
and a failing save, at concrete inputs. -/
theorem c4_last_error_lifecycle_witness :
    (init_cache (some [97]) (some [115]) 512 32 true).last = none
    ∧ (init_cache none (some [115]) 512 32 true).last =
        some (errMsg (Error.emptyArg DATA_DIR_ARG))
    ∧ (save_wasm (some { modules := [], pinned := [] }) (some [1]) true).last = none
    ∧ (save_wasm none (some [1]) true).last = some (errMsg (Error.emptyArg CACHE_ARG)) := by
  have h := c4_last_error_lifecycle true
  exact ⟨h.1 (some [97]) (some [115]) 512 32 { modules := [], pinned := [] } rfl,
    h.2.1 none (some [115]) 512 32 (Error.emptyArg DATA_DIR_ARG) rfl,
    h.2.2.1 (some { modules := [], pinned := [] }) (some [1])
      (checksumOf [1], { modules := [(checksumOf [1], [1])], pinned := [] }) rfl,
    h.2.2.2.1 none (some [1]) (Error.emptyArg CACHE_ARG) rfl⟩

/-- Claim C5: for load, pin, unpin and analyze, a present non-empty
checksum whose length differs from the fixed checksum length is a
malformed-input failure of the inner body (the conversion error, never
a panic: the functions are total), and the exposed call on a live
handle reports exactly that error. -/
theorem c5_checksum_wrong_length :
    ∀ (c : EngineState) (bs : Bytes) (es : Bool), bs ≠ [] → bs.length ≠ CHECKSUM_LEN →
      do_load_wasm c (some bs) = Except.error (Error.invalidChecksumLen bs.length)
    ∧ do_pin c (some bs) = Except.error (Error.invalidChecksumLen bs.length)
    ∧ do_unpin c (some bs) = Except.error (Error.invalidChecksumLen bs.length)
    ∧ do_analyze_code c (some bs) = Except.error (Error.invalidChecksumLen bs.length)
    ∧ (load_wasm (some c) (some bs) es).last =
        some (errMsg (Error.invalidChecksumLen bs.length))
    ∧ (pin (some c) (some bs) es).last =
        some (errMsg (Error.invalidChecksumLen bs.length))
    ∧ (unpin (some c) (some bs) es).last =
        some (errMsg (Error.invalidChecksumLen bs.length))
    ∧ (analyze_code (some c) (some bs) es).last =
        some (errMsg (Error.invalidChecksumLen bs.length)) := by
  intro c bs es _ hlen
  have hconv : checksumTryFrom bs = Except.error (Error.invalidChecksumLen bs.length) := by
    simp [checksumTryFrom, hlen]
  have h1 : do_load_wasm c (some bs) = Except.error (Error.invalidChecksumLen bs.length) := by
    simp [do_load_wasm, Buffer.read, hconv]
  have h2 : do_pin c (some bs) = Except.error (Error.invalidChecksumLen bs.length) := by
    simp [do_pin, Buffer.read, hconv]
  have h3 : do_unpin c (some bs) = Except.error (Error.invalidChecksumLen bs.length) := by
    simp [do_unpin, Buffer.read, hconv]
  have h4 : do_analyze_code c (some bs) = Except.error (Error.invalidChecksumLen bs.length) := by
    simp [do_analyze_code, Buffer.read, hconv]
  refine ⟨h1, h2, h3, h4, ?_, ?_, ?_, ?_⟩
  · simp [load_wasm, load_wasm_with, load_wasm_r, to_cache, catchUnwind,
      handle_c_error_binary, h1]
  · simp [pin, pin_with, pin_r, to_cache, catchUnwind,
      handle_c_error_default, Except.map, h2]
  · simp [unpin, unpin_with, unpin_r, to_cache, catchUnwind,
      handle_c_error_default, Except.map, h3]
  · simp [analyze_code, analyze_code_with, analyze_code_r, to_cache, catchUnwind, h4]

/-- Witness for C5 at a concrete three byte checksum on a live empty
engine. -/
theorem c5_checksum_wrong_length_witness :
    do_load_wasm { modules := [], pinned := [] } (some [1, 2, 3]) =
      Except.error (Error.invalidChecksumLen 3)
    ∧ (pin (some { modules := [], pinned := [] }) (some [1, 2, 3]) true).last =
      some (errMsg (Error.invalidChecksumLen 3)) := by
  have h := c5_checksum_wrong_length { modules := [], pinned := [] } [1, 2, 3] true
    (by decide) (by decide)
  exact ⟨h.1, h.2.2.2.2.2.1⟩

/-- Claim C6: whenever init validation or engine construction fails,
no handle is produced (the null pointer is returned, keeping the
absent state) and the message reaches the error channel; in
particular a null data directory fails with the empty-argument error,
a directory path with an embedded nul byte fails with the engine
construction error, and non UTF-8 feature bytes fail with the
decoding error. -/
theorem c6_init_failures :
    ∀ (es : Bool),
      (∀ dd sf a b e, do_init_cache dd sf a b = Except.error e →
        (init_cache dd sf a b es).handle = none
        ∧ (init_cache dd sf a b es).last = some (errMsg e)
        ∧ (init_cache dd sf a b es).errOut = (if es then some (errMsg e) else none))
    ∧ (∀ sf a b, do_init_cache none sf a b = Except.error (Error.emptyArg DATA_DIR_ARG))
    ∧ (∀ dir fb a b, utf8Valid dir = true → dir.contains 0 = true → utf8Valid fb = true →
        do_init_cache (some dir) (some fb) a b = Except.error (Error.engineErr
          "Cache error: Error creating Wasm dir for cache: data provided contains a nul byte"))
    ∧ (∀ dir fb a b, utf8Valid dir = true → utf8Valid fb = false →
        do_init_cache (some dir) (some fb) a b = Except.error Error.invalidUtf8) := by
  intro es
  refine ⟨?_, ?_, ?_, ?_⟩
  · intro dd sf a b e hr
    simp [init_cache, init_cache_with, catchUnwind, hr]
  · intro sf a b
    rfl
  · intro dir fb a b hdir hnul hfb
    simp at hnul
    simp [do_init_cache, ByteSliceView.read, hdir, hfb, Cache.new, hnul]
  · intro dir fb a b hdir hfb
    simp [do_init_cache, ByteSliceView.read, hdir, hfb]

/-- Witness for C6: a directory containing a nul byte, non UTF-8
feature bytes, and a null directory, at concrete inputs with the
output error parameter supplied. -/
theorem c6_init_failures_witness :
    do_init_cache (some [98, 0, 99]) (some [115]) 512 32 = Except.error (Error.engineErr
      "Cache error: Error creating Wasm dir for cache: data provided contains a nul byte")
    ∧ do_init_cache (some [98]) (some [255]) 512 32 = Except.error Error.invalidUtf8
    ∧ (init_cache none (some [115]) 512 32 true).handle = none := by
  have h := c6_init_failures true
  refine ⟨h.2.2.1 [98, 0, 99] [115] 512 32 (by decide) (by decide) (by decide),
    h.2.2.2 [98] [255] 512 32 (by decide) (by decide),
    (h.1 none (some [115]) 512 32 (Error.emptyArg DATA_DIR_ARG) (h.2.1 (some [115]) 512 32)).1⟩

/-- Helper: on a live handle, saving non-empty bytes succeeds, returns
the deterministic checksum as an owned buffer, clears the error slot,
and stores the bytes under that checksum in the engine state. -/
theorem save_wasm_live (c : EngineState) (w : Bytes) (es : Bool) (hw : w ≠ []) :
    save_wasm (some c) (some w) es =
      { ret := Buffer.from_vec (checksumOf w)
        cache := some { c with modules := (checksumOf w, w) :: c.modules }
        last := none, errOut := none } := by
  simp [save_wasm, save_wasm_with, save_wasm_r, to_cache, catchUnwind, do_save_wasm,
    Buffer.read, EngineState.saveWasm, hw, handle_c_error_binary, Except.map, Buffer.from_vec]

/-- Claim C7: for all valid (non-empty) module bytes saved on a live
handle, save succeeds with a checksum buffer, and load on the updated
handle with exactly that returned buffer succeeds and yields back
exactly the original bytes. -/
theorem c7_save_load_roundtrip :
    ∀ (c : EngineState) (w : Bytes) (es : Bool), w ≠ [] →
      (save_wasm (some c) (some w) es).last = none
    ∧ (save_wasm (some c) (some w) es).ret = Buffer.from_vec (checksumOf w)
    ∧ (load_wasm (save_wasm (some c) (some w) es).cache
        ((save_wasm (some c) (some w) es).ret) es).last = none
    ∧ (load_wasm (save_wasm (some c) (some w) es).cache
        ((save_wasm (some c) (some w) es).ret) es).ret = Buffer.from_vec w := by
  intro c w es hw
  rw [save_wasm_live c w es hw]
  refine ⟨rfl, rfl, ?_, ?_⟩
  all_goals
    simp [load_wasm, load_wasm_with, load_wasm_r, to_cache, catchUnwind, do_load_wasm,
      Buffer.read, Buffer.from_vec, checksumTryFrom, checksumOf_length,
      EngineState.loadWasm, List.lookup, handle_c_error_binary]

/-- Witness for C7 at the one byte module [7] on a live empty engine. -/
theorem c7_save_load_roundtrip_witness :
    (save_wasm (some { modules := [], pinned := [] }) (some [7]) true).ret =
      Buffer.from_vec (checksumOf [7])
    ∧ (load_wasm (save_wasm (some { modules := [], pinned := [] }) (some [7]) true).cache
        ((save_wasm (some { modules := [], pinned := [] }) (some [7]) true).ret) true).ret =
      Buffer.from_vec [7] := by
  have h := c7_save_load_roundtrip { modules := [], pinned := [] } [7] true (by decide)
  exact ⟨h.2.1, h.2.2.2⟩

/-- Helper: pinning a stored checksum of the right length on a live
handle succeeds with no error and only extends the pinned set. -/
theorem pin_live (c : EngineState) (cs : Checksum) (w : Bytes) (es : Bool)
    (hm : c.modules.lookup cs = some w) (hl : cs.length = CHECKSUM_LEN) :
    pin (some c) (some cs) es =
      { ret := ()
        cache := some
          { c with pinned := if c.pinned.contains cs then c.pinned else cs :: c.pinned }
        last := none, errOut := none } := by
  simp [pin, pin_with, pin_r, to_cache, catchUnwind, do_pin, Buffer.read,
    checksumTryFrom, hl, EngineState.pin, hm, handle_c_error_default, Except.map]

/-- Helper: unpinning a stored checksum of the right length on a live
handle succeeds with no error, whether or not it was pinned. -/
theorem unpin_live (c : EngineState) (cs : Checksum) (w : Bytes) (es : Bool)
    (hm : c.modules.lookup cs = some w) (hl : cs.length = CHECKSUM_LEN) :
    unpin (some c) (some cs) es =
      { ret := ()
        cache := some { c with pinned := c.pinned.filter (fun x => ¬(x == cs)) }
        last := none, errOut := none } := by
  simp [unpin, unpin_with, unpin_r, to_cache, catchUnwind, do_unpin, Buffer.read,
    checksumTryFrom, hl, EngineState.unpin, hm, handle_c_error_default, Except.map]

/-- Claim C8: pin and unpin are idempotent on a live handle. For every
stored checksum, pinning succeeds and pinning again on the updated
handle succeeds with no error; unpinning (also on a never-pinned
stored checksum) succeeds, and unpinning again on the updated handle
succeeds with no error. -/
theorem c8_pin_unpin_idempotent :
    ∀ (c : EngineState) (cs : Checksum) (w : Bytes) (es : Bool),
      c.modules.lookup cs = some w → cs.length = CHECKSUM_LEN →
      (pin (some c) (some cs) es).last = none
    ∧ (pin ((pin (some c) (some cs) es).cache) (some cs) es).last = none
    ∧ (unpin (some c) (some cs) es).last = none
    ∧ (unpin ((unpin (some c) (some cs) es).cache) (some cs) es).last = none := by
  intro c cs w es hm hl
  have h1 := pin_live c cs w es hm hl
  have h2 := pin_live
    { c with pinned := if c.pinned.contains cs then c.pinned else cs :: c.pinned }
    cs w es hm hl
  have h3 := unpin_live c cs w es hm hl
  have h4 := unpin_live { c with pinned := c.pinned.filter (fun x => ¬(x == cs)) }
    cs w es hm hl
  simp only [h1, h2, h3, h4]
  exact ⟨trivial, trivial, trivial, trivial⟩

/-- Witness for C8 at a stored all-zero checksum on a live engine with
one stored module and nothing pinned. -/
theorem c8_pin_unpin_idempotent_witness :
    (pin (some { modules := [(List.replicate 32 0, [1])], pinned := [] })
      (some (List.replicate 32 0)) true).last = none
    ∧ (unpin (some { modules := [(List.replicate 32 0, [1])], pinned := [] })
      (some (List.replicate 32 0)) true).last = none := by
  have h := c8_pin_unpin_idempotent
    { modules := [(List.replicate 32 0, [1])], pinned := [] }
    (List.replicate 32 0) [1] true (by decide) (by decide)
  exact ⟨h.1, h.2.2.1⟩

end Wasmvm
